import Mathlib

/-!
# Shallow embedding of the `aichatbot` repository

This file embeds, in Lean 4, the data model and operations of the
Rust repository `dokyit/aichatbot` (files `src/models.rs`,
`src/ai_service.rs`, `src/database.rs`, `src/api.rs`), and proves
properties of them.

Modelling conventions:
* Rust `String` is Lean `String`; `Vec<u8>` is `List Nat` (each entry a
  byte value); `DateTime<Utc>` is a `Nat` timestamp; `f64` is `ℚ`
  (the floating-point values involved are small decimal constants);
  `i32`/`i64` are `Int`; `Option<T>` is `Option T`;
  `anyhow::Result<T>` is `Except String T`.
* `uuid::Uuid::new_v4()` and `Utc::now()` are nondeterministic; they
  are modelled as explicitly supplied arguments (fresh identifiers and
  timestamps).
* The `HashMap<AIProvider, String>` of clients is modelled as an
  association list `List (AIProvider × String)`; the keys inserted by
  `AIService::new` are pairwise distinct, so the association list is a
  faithful model of the map.
* The SQLite tables are modelled as lists of row records inside a
  `DbState`; `ORDER BY` clauses are modelled with `List.insertionSort`.
-/

namespace Aichatbot

/-- Rust `MessageRole` from `src/models.rs`. -/
inductive MessageRole where
  | User
  | Assistant
  | System
deriving DecidableEq, Repr

/-- Rust `impl Display for MessageRole` from `src/models.rs`. -/
def MessageRole.toStr : MessageRole → String
  | .User => "user"
  | .Assistant => "assistant"
  | .System => "system"

/-- Rust `impl From<String> for MessageRole` from `src/models.rs`:
unrecognised strings fall back to `User`. -/
def MessageRole.fromString (s : String) : MessageRole :=
  if s = "user" then .User
  else if s = "assistant" then .Assistant
  else if s = "system" then .System
  else .User

/-- Rust `AIProvider` from `src/models.rs`. -/
inductive AIProvider where
  | Ollama
  | OpenAI
  | Anthropic
  | Gemini
  | OpenRouter
deriving DecidableEq, Repr

/-- Rust `impl Display for AIProvider` from `src/models.rs`. -/
def AIProvider.toStr : AIProvider → String
  | .Ollama => "ollama"
  | .OpenAI => "openai"
  | .Anthropic => "anthropic"
  | .Gemini => "gemini"
  | .OpenRouter => "openrouter"

/-- Rust `impl From<String> for AIProvider` from `src/models.rs`:
unrecognised strings fall back to `Ollama`. -/
def AIProvider.fromString (s : String) : AIProvider :=
  if s = "ollama" then .Ollama
  else if s = "openai" then .OpenAI
  else if s = "anthropic" then .Anthropic
  else if s = "gemini" then .Gemini
  else if s = "openrouter" then .OpenRouter
  else .Ollama

/-- Rust `Message` from `src/models.rs`. -/
structure Message where
  id : String
  session_id : String
  role : MessageRole
  content : String
  reasoning : Option String
  model_provider : Option String
  model_name : Option String
  tokens_used : Option Int
  created_at : Nat
deriving DecidableEq, Repr

/-- Rust `UserMemory` from `src/models.rs` (`confidence: f64` modelled as `ℚ`). -/
structure UserMemory where
  id : String
  user_id : String
  memory_key : String
  memory_value : String
  confidence : ℚ
  created_at : Nat
  updated_at : Nat
deriving DecidableEq, Repr

/-- Rust `ChatSession` from `src/models.rs`. -/
structure ChatSession where
  id : String
  user_id : String
  title : Option String
  model_provider : String
  model_name : String
  created_at : Nat
  updated_at : Nat
deriving DecidableEq, Repr

/-- Rust `FileUpload` from `src/models.rs` (`data: Vec<u8>` as `List Nat`). -/
structure FileUpload where
  name : String
  content_type : String
  data : List Nat
deriving DecidableEq, Repr

/-- Rust `FileAttachment` from `src/models.rs`. -/
structure FileAttachment where
  id : String
  message_id : String
  file_name : String
  file_path : String
  file_type : String
  file_size : Int
  content_hash : Option String
  created_at : Nat
deriving DecidableEq, Repr

/-- Rust `SuggestedQuestion` from `src/models.rs` (`relevance_score: f64` as `ℚ`). -/
structure SuggestedQuestion where
  id : String
  session_id : String
  question : String
  relevance_score : ℚ
  used : Bool
  created_at : Nat
deriving DecidableEq, Repr

/-- Rust `ChatResponse` from `src/models.rs`. -/
structure ChatResponse where
  message_id : String
  content : String
  reasoning : Option String
  suggested_questions : List String
  model_provider : String
  model_name : String
  tokens_used : Option Int
deriving DecidableEq, Repr

/-- Rust `AIServiceConfig` from `src/ai_service.rs`. -/
structure AIServiceConfig where
  openai_api_key : Option String
  anthropic_api_key : Option String
  gemini_api_key : Option String
  openrouter_api_key : Option String
  ollama_base_url : String
deriving DecidableEq, Repr

/-- Rust `impl Default for AIServiceConfig` from `src/ai_service.rs`. -/
def AIServiceConfig.default : AIServiceConfig :=
  { openai_api_key := none
    anthropic_api_key := none
    gemini_api_key := none
    openrouter_api_key := none
    ollama_base_url := "http://localhost:11434" }

/-- Rust `AIService` from `src/ai_service.rs`; the `RwLock<HashMap<..>>` of
clients is an association list. -/
structure AIService where
  clients : List (AIProvider × String)
  config : AIServiceConfig
deriving Repr

/-- Key lookup in the association list modelling the `HashMap`. -/
def clientsLookup (clients : List (AIProvider × String)) (p : AIProvider) :
    Option String :=
  (clients.find? (fun e => e.1 = p)).map (·.2)

/-- Rust `HashMap::contains_key` on the association-list model. -/
def clientsContains (clients : List (AIProvider × String)) (p : AIProvider) :
    Bool :=
  clients.any (fun e => e.1 = p)

/-- Rust `AIService::new` from `src/ai_service.rs`: inserts an entry per
configured API key, and always inserts the Ollama base URL. -/
def AIService.new (config : AIServiceConfig) : Except String AIService :=
  let clients : List (AIProvider × String) :=
    (match config.openai_api_key with
     | some k => [(AIProvider.OpenAI, k)]
     | none => []) ++
    (match config.anthropic_api_key with
     | some k => [(AIProvider.Anthropic, k)]
     | none => []) ++
    (match config.gemini_api_key with
     | some k => [(AIProvider.Gemini, k)]
     | none => []) ++
    (match config.openrouter_api_key with
     | some k => [(AIProvider.OpenRouter, k)]
     | none => []) ++
    [(AIProvider.Ollama, config.ollama_base_url)]
  Except.ok { clients := clients, config := config }

/-- Rust `{:?}` (Debug) rendering of `AIProvider`, used in the error
message of `AIService::chat`. -/
def AIProvider.debugStr : AIProvider → String
  | .Ollama => "Ollama"
  | .OpenAI => "OpenAI"
  | .Anthropic => "Anthropic"
  | .Gemini => "Gemini"
  | .OpenRouter => "OpenRouter"

/-- Rust `str::split_whitespace`: split on whitespace, dropping empty
pieces. -/
def splitWhitespace (s : String) : List String :=
  (s.split (·.isWhitespace)).filter (· ≠ "")

/-- The base64 alphabet, for `base64::encode` in `src/ai_service.rs`. -/
def base64Table : List Char :=
  "ABCDEFGHIJKLMNOPQRSTUVWXYZabcdefghijklmnopqrstuvwxyz0123456789+/".data

/-- The base64 digit for a 6-bit value. -/
def base64Char (n : Nat) : Char := base64Table.getD n 'A'

/-- Rust `base64::encode` over a byte list. -/
def base64Encode : List Nat → String
  | [] => ""
  | [b0] =>
      let n := (b0 % 256) * 65536
      String.mk [base64Char (n / 262144 % 64), base64Char (n / 4096 % 64)]
        ++ "=="
  | [b0, b1] =>
      let n := (b0 % 256) * 65536 + (b1 % 256) * 256
      String.mk [base64Char (n / 262144 % 64), base64Char (n / 4096 % 64),
        base64Char (n / 64 % 64)] ++ "="
  | b0 :: b1 :: b2 :: rest =>
      let n := (b0 % 256) * 65536 + (b1 % 256) * 256 + (b2 % 256)
      String.mk [base64Char (n / 262144 % 64), base64Char (n / 4096 % 64),
        base64Char (n / 64 % 64), base64Char (n % 64)] ++ base64Encode rest

/-- UTF-8 validation and decoding of a byte list, modelling
`String::from_utf8`: `none` exactly on invalid UTF-8. -/
def utf8Decode : List Nat → Option (List Char)
  | [] => some []
  | b :: rest =>
    if b < 128 then (utf8Decode rest).map (Char.ofNat b :: ·)
    else if 192 ≤ b ∧ b < 224 then
      match rest with
      | c1 :: rest1 =>
        if 128 ≤ c1 ∧ c1 < 192 then
          let cp := (b - 192) * 64 + (c1 - 128)
          if 128 ≤ cp then (utf8Decode rest1).map (Char.ofNat cp :: ·)
          else none
        else none
      | [] => none
    else if 224 ≤ b ∧ b < 240 then
      match rest with
      | c1 :: c2 :: rest2 =>
        if (128 ≤ c1 ∧ c1 < 192) ∧ (128 ≤ c2 ∧ c2 < 192) then
          let cp := (b - 224) * 4096 + (c1 - 128) * 64 + (c2 - 128)
          if 2048 ≤ cp ∧ ¬(55296 ≤ cp ∧ cp ≤ 57343) then
            (utf8Decode rest2).map (Char.ofNat cp :: ·)
          else none
        else none
      | _ => none
    else if 240 ≤ b ∧ b < 248 then
      match rest with
      | c1 :: c2 :: c3 :: rest3 =>
        if (128 ≤ c1 ∧ c1 < 192) ∧ (128 ≤ c2 ∧ c2 < 192) ∧
            (128 ≤ c3 ∧ c3 < 192) then
          let cp := (b - 240) * 262144 + (c1 - 128) * 4096 +
            (c2 - 128) * 64 + (c3 - 128)
          if 65536 ≤ cp ∧ cp ≤ 1114111 then
            (utf8Decode rest3).map (Char.ofNat cp :: ·)
          else none
        else none
      | _ => none
    else none

/-- Rust `String::from_utf8` on the byte-list model. -/
def stringFromUtf8 (data : List Nat) : Option String :=
  (utf8Decode data).map String.mk

/-- The apostrophe, kept out of string literals. -/
def apos : String := String.mk [Char.ofNat 39]

/-- One iteration of the memory loop in
`AIService::build_system_prompt` (line 147): pushes the formatted
string of `format!("- \x7b\x7d: \x7b\x7d\n", memory.memory_key, memory.memory_value)`. -/
def memoryLineStep (acc : String) (m : UserMemory) : String :=
  acc ++ "- " ++ m.memory_key ++ ": " ++ m.memory_value ++ "\n"

/-- Rust `AIService::build_system_prompt` from `src/ai_service.rs`. -/
def build_system_prompt (svc : AIService) (user_memory : List UserMemory) :
    String :=
  let prompt := "You are a helpful AI assistant. "
  let prompt :=
    if user_memory.isEmpty then prompt
    else
      prompt ++ "\n\nUser context and preferences:\n" ++
        user_memory.foldl memoryLineStep "" ++
        "\nPlease remember and use this information in our conversation.\n"
  prompt ++ "\nAlways provide helpful, accurate, and engaging responses. "
    ++ ("If you" ++ apos ++ "re not sure about something, say so. ")
    ++ "You can process images, PDFs, and other files when provided."

/-- Rust `AIService::extract_pdf_text` from `src/ai_service.rs`: pushes a
fixed placeholder, ignoring the bytes. -/
def extract_pdf_text (svc : AIService) (data : List Nat) :
    Except String String :=
  let text := ""
  let text := text ++ "[PDF content extracted]"
  Except.ok text

/-- One iteration of the file loop in
`AIService::build_content_with_files`: appends the text derived from
`file` to the accumulated content. -/
def appendFileContent (svc : AIService) (acc : String) (file : FileUpload) :
    String :=
  if file.content_type = "image/" then
    let base64_data := base64Encode file.data
    acc ++ "\n\n[Image: " ++ file.name ++ "]\n"
      ++ "data:image/" ++ (file.content_type.splitOn "/").getD 1 "jpeg"
      ++ ";base64," ++ base64_data ++ "\n"
  else if file.content_type = "application/pdf" then
    match extract_pdf_text svc file.data with
    | .ok text => acc ++ "\n\n[PDF Content from " ++ file.name ++ "]\n" ++ text
    | .error _ => acc
  else if file.content_type = "text/" then
    match stringFromUtf8 file.data with
    | some text => acc ++ "\n\n[Text from " ++ file.name ++ "]\n" ++ text
    | none => acc
  else
    acc ++ "\n\n[File: " ++ file.name ++ " - " ++ file.content_type ++ "]\n"

/-- Rust `AIService::build_content_with_files` from `src/ai_service.rs`. -/
def build_content_with_files (svc : AIService) (content : String)
    (files : List FileUpload) : Except String String :=
  Except.ok (files.foldl (appendFileContent svc) content)

/-- Rust `AIService::extract_topics` from `src/ai_service.rs`: whitespace
words whose byte length exceeds 4, first five kept. -/
def extract_topics (svc : AIService) (content : String) : List String :=
  let words := (splitWhitespace content).filter
    (fun word => 4 < word.utf8ByteSize)
  words.take 5

/-- Rust `AIService::generate_suggested_questions` from `src/ai_service.rs`. -/
def generate_suggested_questions (svc : AIService)
    (response_content : String) (messages : List Message)
    (user_memory : List UserMemory) : Except String (List String) :=
  let topics := extract_topics svc response_content
  let questions :=
    (topics.take 3).map (fun topic => "Tell me more about " ++ topic)
  let questions := questions ++
    ["Can you explain that in simpler terms?",
     "What are the pros and cons of this approach?",
     "How does this compare to other solutions?"]
  Except.ok (questions.take 5)

/-- The role string written into a formatted message by `AIService::chat`
(lines 87–91). -/
def chatRoleString : MessageRole → String
  | .User => "user"
  | .Assistant => "assistant"
  | .System => "system"

/-- One iteration of the message loop in `AIService::chat`
(lines 86–103): appends the (role, content) pair for `msg`, the content
expanded with file content for user messages when files are present. -/
def formatStep (svc : AIService) (files : List FileUpload)
    (acc : List (String × String)) (msg : Message) :
    Except String (List (String × String)) := do
  let role := chatRoleString msg.role
  let content ←
    if ¬files.isEmpty ∧ msg.role = MessageRole.User then
      build_content_with_files svc msg.content files
    else
      pure msg.content
  pure (acc ++ [(role, content)])

/-- The `formatted_messages` list built in `AIService::chat`
(lines 80–103): a system message from the prompt, then every input
message. Each element is a (role, content) pair, modelling the `json!`
object. -/
def formatMessages (svc : AIService) (system_prompt : String)
    (messages : List Message) (files : List FileUpload) :
    Except String (List (String × String)) :=
  messages.foldlM (formatStep svc files) [("system", system_prompt)]

/-- The mock response string synthesised by `AIService::chat`
(lines 107–109). -/
def mockResponse (provider : AIProvider) (model_name : String)
    (messages : List Message) : String :=
  "This is a mock response from " ++ provider.toStr ++ " using model "
    ++ model_name ++ ". You said: "
    ++ ((messages.getLast?.map (·.content)).getD "")

/-- Rust `AIService::chat` from `src/ai_service.rs`. `uuid::Uuid::new_v4()`
is modelled as the extra argument `fresh_message_id`. -/
def AIService.chat (svc : AIService) (provider : AIProvider)
    (model_name : String) (messages : List Message)
    (user_memory : List UserMemory) (files : List FileUpload)
    (fresh_message_id : String) : Except String ChatResponse := do
  let clients := svc.clients
  if ¬clientsContains clients provider then
    throw ("Provider " ++ provider.debugStr ++ " not available")
  else
    let system_prompt := build_system_prompt svc user_memory
    let _formatted_messages ← formatMessages svc system_prompt messages files
    let mock_response := mockResponse provider model_name messages
    let questions ←
      generate_suggested_questions svc mock_response messages user_memory
    pure
      { message_id := fresh_message_id
        content := mock_response
        reasoning := some "This is a mock reasoning process."
        suggested_questions := questions
        model_provider := provider.toStr
        model_name := model_name
        tokens_used := some 150 }

/-- Rust `User` from `src/models.rs`. -/
structure User where
  id : String
  name : Option String
  email : Option String
  created_at : Nat
  updated_at : Nat
deriving DecidableEq, Repr

/-- A row of the `messages` table: `create_message` stores the role as
the string `role.to_string()`, and `get_session_messages` converts it
back with `MessageRole::from`. -/
structure MessageRow where
  id : String
  session_id : String
  role : String
  content : String
  reasoning : Option String
  model_provider : Option String
  model_name : Option String
  tokens_used : Option Int
  created_at : Nat
deriving DecidableEq, Repr

/-- The column values inserted by `Database::create_message`. -/
def messageToRow (m : Message) : MessageRow :=
  { id := m.id
    session_id := m.session_id
    role := m.role.toStr
    content := m.content
    reasoning := m.reasoning
    model_provider := m.model_provider
    model_name := m.model_name
    tokens_used := m.tokens_used
    created_at := m.created_at }

/-- The `Message` built from a row by `Database::get_session_messages`. -/
def rowToMessage (r : MessageRow) : Message :=
  { id := r.id
    session_id := r.session_id
    role := MessageRole.fromString r.role
    content := r.content
    reasoning := r.reasoning
    model_provider := r.model_provider
    model_name := r.model_name
    tokens_used := r.tokens_used
    created_at := r.created_at }

/-- The SQLite database state: one list of rows per table of
`migrations/001_create_tables.sql`, as read and written by
`src/database.rs`. -/
structure DbState where
  users : List User
  chat_sessions : List ChatSession
  messages : List MessageRow
  user_memory : List UserMemory
  file_attachments : List FileAttachment
  suggested_questions : List SuggestedQuestion
deriving Repr

/-- The relation of `ORDER BY created_at ASC` on message rows. -/
def createdAtLe (a b : MessageRow) : Prop := a.created_at ≤ b.created_at

instance : DecidableRel createdAtLe := fun a b =>
  inferInstanceAs (Decidable (a.created_at ≤ b.created_at))

instance : IsTotal MessageRow createdAtLe :=
  ⟨fun a b => Nat.le_total a.created_at b.created_at⟩

instance : IsTrans MessageRow createdAtLe :=
  ⟨fun _ _ _ hab hbc => Nat.le_trans hab hbc⟩

/-- The relation of `ORDER BY confidence DESC, updated_at DESC` on the
`user_memory` table. -/
def memoryOrder (a b : UserMemory) : Prop :=
  b.confidence < a.confidence ∨
    (a.confidence = b.confidence ∧ b.updated_at ≤ a.updated_at)

instance : DecidableRel memoryOrder := fun a b =>
  inferInstanceAs (Decidable (_ ∨ _))

namespace Database

/-- Rust `Database::create_session`: inserts a row into `chat_sessions`. -/
def create_session (db : DbState) (session : ChatSession) : DbState :=
  { db with chat_sessions := db.chat_sessions ++ [session] }

/-- Rust `Database::get_session`: `SELECT .. FROM chat_sessions WHERE id = ?`
with `fetch_optional`. -/
def get_session (db : DbState) (session_id : String) :
    Except String (Option ChatSession) :=
  Except.ok (db.chat_sessions.find? (fun s => s.id = session_id))

/-- Rust `Database::create_message`: inserts a row into `messages`, storing
the role as its display string. -/
def create_message (db : DbState) (message : Message) : DbState :=
  { db with messages := db.messages ++ [messageToRow message] }

/-- Rust `Database::get_session_messages`: `SELECT .. FROM messages WHERE
session_id = ? ORDER BY created_at ASC`, each row converted back to a
`Message`. -/
def get_session_messages (db : DbState) (session_id : String) :
    List Message :=
  ((db.messages.filter (fun r => r.session_id = session_id)).insertionSort
    createdAtLe).map rowToMessage

/-- Rust `Database::get_user_memory`: `SELECT .. FROM user_memory WHERE
user_id = ? ORDER BY confidence DESC, updated_at DESC`. -/
def get_user_memory (db : DbState) (user_id : String) : List UserMemory :=
  (db.user_memory.filter (fun m => m.user_id = user_id)).insertionSort
    memoryOrder

/-- Rust `Database::save_file_attachment`: inserts a row into
`file_attachments`. -/
def save_file_attachment (db : DbState) (attachment : FileAttachment) :
    DbState :=
  { db with file_attachments := db.file_attachments ++ [attachment] }

/-- Rust `Database::save_suggested_questions`: inserts each question in
order into `suggested_questions`. -/
def save_suggested_questions (db : DbState)
    (questions : List SuggestedQuestion) : DbState :=
  { db with suggested_questions := db.suggested_questions ++ questions }

end Database

/-- Rust `AppState` from `src/api.rs`. -/
structure AppState where
  db : DbState
  ai_service : AIService

/-- Rust `Message::new` from `src/models.rs`; `Uuid::new_v4()` and
`Utc::now()` are the arguments `id` and `now`. -/
def Message.new (session_id : String) (role : MessageRole)
    (content : String) (id : String) (now : Nat) : Message :=
  { id := id
    session_id := session_id
    role := role
    content := content
    reasoning := none
    model_provider := none
    model_name := none
    tokens_used := none
    created_at := now }

/-- The `SuggestedQuestion` records built in `send_message`
(`src/api.rs` lines 105–116): the i-th question gets relevance score
`1.0 - i * 0.1` and `used = false`. `base` is the index of the first
uuid drawn for a question. -/
def mkSuggestedQuestions (session_id : String) (uuidGen : Nat → String)
    (base : Nat) (now : Nat) (questions : List String) :
    List SuggestedQuestion :=
  questions.enum.map
    (fun iq =>
      { id := uuidGen (base + iq.1)
        session_id := session_id
        question := iq.2
        relevance_score := 1 - (iq.1 : ℚ) * (1 / 10)
        used := false
        created_at := now })

/-- Rust `send_message` from `src/api.rs`. Nondeterministic effects are
arguments: `uuidGen k` is the k-th `Uuid::new_v4()` drawn (0 for the
user message, 1..files.length for attachments, files.length+1 for the
chat response, the rest for suggested questions); `now` and `now2` are
the `Utc::now()` readings before and after the AI call. Returns the
updated state together with the `ChatResponse`. -/
def send_message (state : AppState) (session_id : String)
    (message : String) (files : List FileUpload) (uuidGen : Nat → String)
    (now now2 : Nat) : Except String (AppState × ChatResponse) := do
  let sessionOpt ← Database.get_session state.db session_id
  let session ←
    match sessionOpt with
    | some s => pure s
    | none => throw "Session not found"
  let user_memory := Database.get_user_memory state.db session.user_id
  let messages := Database.get_session_messages state.db session_id
  let user_message :=
    Message.new session_id MessageRole.User message (uuidGen 0) now
  let db := Database.create_message state.db user_message
  let db := files.enum.foldl
    (fun db iFile =>
      Database.save_file_attachment db
        { id := uuidGen (iFile.1 + 1)
          message_id := user_message.id
          file_name := iFile.2.name
          file_path := "uploads/" ++ iFile.2.name
          file_type := iFile.2.content_type
          file_size := (iFile.2.data.length : Int)
          content_hash := none
          created_at := now })
    db
  let provider := AIProvider.fromString session.model_provider
  let model_name := session.model_name
  let ai_response ← AIService.chat state.ai_service provider model_name
    messages user_memory files (uuidGen (files.length + 1))
  let ai_message : Message :=
    { id := ai_response.message_id
      session_id := session_id
      role := MessageRole.Assistant
      content := ai_response.content
      reasoning := ai_response.reasoning
      model_provider := some ai_response.model_provider
      model_name := some ai_response.model_name
      tokens_used := ai_response.tokens_used
      created_at := now2 }
  let db := Database.create_message db ai_message
  let suggested := mkSuggestedQuestions session_id uuidGen
    (files.length + 2) now2 ai_response.suggested_questions
  let db :=
    if suggested.isEmpty then db
    else Database.save_suggested_questions db suggested
  pure ({ state with db := db }, ai_response)

/-- Rust `get_chat_history` from `src/api.rs`: returns exactly
`Database::get_session_messages`. -/
def get_chat_history (state : AppState) (session_id : String) :
    Except String (List Message) :=
  Except.ok (Database.get_session_messages state.db session_id)

/-- Rust `AIService::get_available_models` from `src/ai_service.rs`. -/
def AIService.get_available_models (svc : AIService)
    (provider : AIProvider) : Except String (List String) :=
  match provider with
  | .Ollama =>
      .ok ["llama3.2", "llama3.1", "mistral", "codellama", "llama2"]
  | .OpenAI =>
      .ok ["gpt-4", "gpt-4-turbo", "gpt-3.5-turbo"]
  | .Anthropic =>
      .ok ["claude-3-opus-20240229", "claude-3-sonnet-20240229",
        "claude-3-haiku-20240307"]
  | .Gemini =>
      .ok ["gemini-pro", "gemini-pro-vision"]
  | .OpenRouter =>
      .ok ["openai/gpt-4", "anthropic/claude-3-opus",
        "meta-llama/llama-3.1-8b-instruct"]

/-- The content that `AIService::chat` attaches to a formatted message
(lines 93–97): user messages are expanded with file content when files
are present. -/
def formattedContent (svc : AIService) (files : List FileUpload)
    (msg : Message) : String :=
  if ¬files.isEmpty ∧ msg.role = MessageRole.User then
    files.foldl (appendFileContent svc) msg.content
  else msg.content

/-- Spec-side definition for the suggested-question claim, written
from the specification words: the first five whitespace-separated
words of length greater than 4 are the topics, at most three of them
become questions of the form "Tell me more about &lt;topic&gt;", three
fixed generic questions are appended, and the result is truncated to
at most five questions. -/
def specSuggestedQuestions (response : String) : List String :=
  let topics :=
    ((splitWhitespace response).filter
      (fun word => 4 < word.utf8ByteSize)).take 5
  (((topics.take 3).map (fun topic => "Tell me more about " ++ topic)) ++
    ["Can you explain that in simpler terms?",
     "What are the pros and cons of this approach?",
     "How does this compare to other solutions?"]).take 5

/-- Containment of one string in another as a contiguous substring. -/
def containsSubstring (big small : String) : Prop :=
  ∃ pre post : List Char, big.data = pre ++ small.data ++ post

/-- Discriminator for failed `Except` computations (Rust
`Result::is_err`). -/
def exceptIsErr {ε α : Type} : Except ε α → Bool
  | .error _ => true
  | .ok _ => false

/-- A concrete session used to evaluate theorems on explicit inputs. -/
def sessionW : ChatSession :=
  { id := "s1"
    user_id := "default_user"
    title := none
    model_provider := "ollama"
    model_name := "llama3.2"
    created_at := 0
    updated_at := 0 }

/-- A concrete database state holding only `sessionW`. -/
def dbW : DbState :=
  { users := []
    chat_sessions := [sessionW]
    messages := []
    user_memory := []
    file_attachments := []
    suggested_questions := [] }

/-- A concrete AI service holding only the Ollama entry. -/
def svcW : AIService :=
  { clients := [(AIProvider.Ollama, "http://localhost:11434")]
    config := AIServiceConfig.default }

/-- A concrete application state. -/
def stateW : AppState := { db := dbW, ai_service := svcW }

/-- A concrete uuid supply. -/
def uuidW : Nat → String := fun k => "uuid-" ++ toString k

/-- A concrete user-memory entry. -/
def memW : UserMemory :=
  { id := "m1"
    user_id := "default_user"
    memory_key := "likes"
    memory_value := "lean"
    confidence := 1
    created_at := 0
    updated_at := 0 }

/-! ## Supporting lemmas -/

/-- Bind of a successful `Except` computation. -/
theorem okBind {ε α β : Type} (a : α) (f : α → Except ε β) :
    (Except.ok a >>= f) = f a := rfl

/-- Pure on `Except` is `Except.ok`. -/
theorem pureOk {ε α : Type} (a : α) : (pure a : Except ε α) = Except.ok a :=
  rfl

/-- Rust `generate_suggested_questions` computes exactly the spec-side
question list, for any service, message list and memory. -/
theorem generate_suggested_questions_eq (svc : AIService)
    (response : String) (messages : List Message)
    (user_memory : List UserMemory) :
    generate_suggested_questions svc response messages user_memory =
      Except.ok (specSuggestedQuestions response) := rfl

/-! ## Claims -/

/-- C2: Suggested-question generation is a word heuristic and not a
model call: for every response string, `generate_suggested_questions`
takes the first five whitespace-separated words of length greater
than 4 as topics, turns at most three of them into "Tell me more
about ..." questions, appends three fixed generic questions, and
truncates the result to at most five questions; the result is
independent of the service state, the message list and the user
memory. -/
theorem suggested_questions_heuristic (svc svcB : AIService)
    (response : String) (messages messagesB : List Message)
    (user_memory user_memoryB : List UserMemory) :
    generate_suggested_questions svc response messages user_memory =
      Except.ok (specSuggestedQuestions response) ∧
    (specSuggestedQuestions response).length ≤ 5 ∧
    generate_suggested_questions svc response messages user_memory =
      generate_suggested_questions svcB response messagesB user_memoryB := by
  refine ⟨rfl, ?_, rfl⟩
  simp only [specSuggestedQuestions, List.length_take]
  omega

/-- C3: for every provider, `get_available_models` returns `Ok` with a
fixed, non-empty model-name list determined solely by the provider
(5 names for Ollama, 3 for OpenAI, 3 for Anthropic, 2 for Gemini,
3 for OpenRouter) and never returns an error. -/
theorem get_available_models_static (svc : AIService)
    (provider : AIProvider) :
    ∃ models : List String,
      svc.get_available_models provider = Except.ok models ∧
      models ≠ [] ∧
      (∀ svcB : AIService,
        svcB.get_available_models provider = Except.ok models) ∧
      models.length =
        (match provider with
         | .Ollama => 5
         | .OpenAI => 3
         | .Anthropic => 3
         | .Gemini => 2
         | .OpenRouter => 3) := by
  cases provider <;> exact ⟨_, rfl, by simp, fun _ => rfl, rfl⟩

/-- C9: string round-trip of the enums: converting a `MessageRole` or
an `AIProvider` to its display string and back yields the original
value, and every unrecognised string maps to the default variant
(`MessageRole::User`, resp. `AIProvider::Ollama`). -/
theorem enum_string_round_trip :
    (∀ r : MessageRole, MessageRole.fromString r.toStr = r) ∧
    (∀ p : AIProvider, AIProvider.fromString p.toStr = p) ∧
    (∀ s : String, s ∉ ["user", "assistant", "system"] →
      MessageRole.fromString s = MessageRole.User) ∧
    (∀ s : String,
      s ∉ ["ollama", "openai", "anthropic", "gemini", "openrouter"] →
      AIProvider.fromString s = AIProvider.Ollama) := by
  refine ⟨fun r => by cases r <;> rfl, fun p => by cases p <;> rfl, ?_, ?_⟩
  · intro s hs
    simp only [List.mem_cons, List.not_mem_nil, or_false, not_or] at hs
    obtain ⟨h1, h2, h3⟩ := hs
    simp [MessageRole.fromString, h1, h2, h3]
  · intro s hs
    simp only [List.mem_cons, List.not_mem_nil, or_false, not_or] at hs
    obtain ⟨h1, h2, h3, h4, h5⟩ := hs
    simp [AIProvider.fromString, h1, h2, h3, h4, h5]

/-- Witness for C9: the round trip and the default fallback evaluated
at concrete values. -/
theorem enum_string_round_trip_witness :
    MessageRole.fromString "frobnicate" = MessageRole.User ∧
    AIProvider.fromString "frobnicate" = AIProvider.Ollama :=
  ⟨enum_string_round_trip.2.2.1 "frobnicate" (by decide),
   enum_string_round_trip.2.2.2 "frobnicate" (by decide)⟩

/-- The text appended for a PDF file is a fixed string built from the
file name only. -/
theorem appendFileContent_pdf (svc : AIService) (acc name : String)
    (d : List Nat) :
    appendFileContent svc acc ⟨name, "application/pdf", d⟩ =
      acc ++ "\n\n[PDF Content from " ++ name ++ "]\n"
        ++ "[PDF content extracted]" := rfl

/-- Replacing the data of every PDF file leaves
`build_content_with_files` unchanged. -/
theorem build_content_pdf_data_irrelevant (svc : AIService)
    (content : String) (files : List FileUpload) (d1 d2 : List Nat) :
    build_content_with_files svc content
      (files.map (fun f =>
        if f.content_type = "application/pdf" then
          { f with data := d1 } else f)) =
    build_content_with_files svc content
      (files.map (fun f =>
        if f.content_type = "application/pdf" then
          { f with data := d2 } else f)) := by
  unfold build_content_with_files
  congr 1
  induction files generalizing content with
  | nil => rfl
  | cons f fs ih =>
      obtain ⟨n, ct, fd⟩ := f
      simp only [List.map_cons, List.foldl_cons]
      by_cases hp : ct = "application/pdf"
      · subst hp
        simp only [eq_self_iff_true, if_true]
        rw [appendFileContent_pdf, appendFileContent_pdf]
        exact ih _
      · simp only [if_neg hp]
        exact ih _

/-- C7: the PDF extractor is a stub: for every input byte slice,
`extract_pdf_text` returns `Ok "[PDF content extracted]"` without
inspecting the bytes, so the text appended for an "application/pdf"
upload by `build_content_with_files` is independent of the file
data. -/
theorem pdf_extractor_stub (svc : AIService) (data : List Nat)
    (acc name content : String) (files : List FileUpload)
    (d1 d2 : List Nat) :
    extract_pdf_text svc data = Except.ok "[PDF content extracted]" ∧
    appendFileContent svc acc ⟨name, "application/pdf", d1⟩ =
      acc ++ "\n\n[PDF Content from " ++ name ++ "]\n"
        ++ "[PDF content extracted]" ∧
    build_content_with_files svc content
        (files.map (fun f =>
          if f.content_type = "application/pdf" then
            { f with data := d1 } else f)) =
      build_content_with_files svc content
        (files.map (fun f =>
          if f.content_type = "application/pdf" then
            { f with data := d2 } else f)) :=
  ⟨rfl, appendFileContent_pdf svc acc name d1,
    build_content_pdf_data_irrelevant svc content files d1 d2⟩

/-- One formatting step always succeeds, appending the (role, content)
pair of the message. -/
theorem formatStep_eq (svc : AIService) (files : List FileUpload)
    (acc : List (String × String)) (msg : Message) :
    formatStep svc files acc msg =
      Except.ok
        (acc ++ [(chatRoleString msg.role, formattedContent svc files msg)]) := by
  unfold formatStep formattedContent build_content_with_files
  split_ifs with h <;> rfl

/-- The message-formatting fold always succeeds, appending one pair
per message. -/
theorem foldlM_formatStep (svc : AIService) (files : List FileUpload) :
    ∀ (messages : List Message) (init : List (String × String)),
      messages.foldlM (formatStep svc files) init =
        Except.ok (init ++ messages.map
          (fun m => (chatRoleString m.role, formattedContent svc files m)))
  | [], init => by simp [pureOk]
  | m :: ms, init => by
      rw [List.foldlM_cons, formatStep_eq, okBind,
        foldlM_formatStep svc files ms]
      simp

/-- The `formatted_messages` list of `AIService::chat` always starts
with the system message carrying the system prompt. -/
theorem formatMessages_eq (svc : AIService) (sp : String)
    (messages : List Message) (files : List FileUpload) :
    formatMessages svc sp messages files =
      Except.ok (("system", sp) :: messages.map
        (fun m => (chatRoleString m.role, formattedContent svc files m))) := by
  unfold formatMessages
  rw [foldlM_formatStep]
  simp

/-- Characterisation of `AIService::chat` when the provider has a
client entry: the call succeeds with the synthesised mock response. -/
theorem chat_eq_of_contains (svc : AIService) (provider : AIProvider)
    (model_name : String) (messages : List Message)
    (user_memory : List UserMemory) (files : List FileUpload)
    (mid : String)
    (h : clientsContains svc.clients provider = true) :
    svc.chat provider model_name messages user_memory files mid =
      Except.ok
        { message_id := mid
          content := mockResponse provider model_name messages
          reasoning := some "This is a mock reasoning process."
          suggested_questions :=
            specSuggestedQuestions (mockResponse provider model_name messages)
          model_provider := provider.toStr
          model_name := model_name
          tokens_used := some 150 } := by
  unfold AIService.chat
  rw [if_neg (by simp [h])]
  simp only [formatMessages_eq, generate_suggested_questions_eq, okBind,
    pureOk]

/-- Characterisation of `AIService::chat` when the provider has no
client entry: the call fails with the availability error. -/
theorem chat_eq_of_not_contains (svc : AIService) (provider : AIProvider)
    (model_name : String) (messages : List Message)
    (user_memory : List UserMemory) (files : List FileUpload)
    (mid : String)
    (h : clientsContains svc.clients provider = false) :
    svc.chat provider model_name messages user_memory files mid =
      Except.error ("Provider " ++ provider.debugStr ++ " not available") := by
  unfold AIService.chat
  rw [if_pos (by simp [h])]
  rfl

/-- C1: for every provider, model name, message list, user memory and
file list, if the provider has an entry in the clients map then
`AIService::chat` returns `Ok` with a synthesised string as content —
exactly "This is a mock response from &lt;provider&gt; using model
&lt;model&gt;. You said: &lt;c&gt;" where c is the content of the last
input message, or the empty string when the list is empty — and
performs no call to any provider (the response is a pure function of
the arguments). -/
theorem chat_is_mocked (svc : AIService) (provider : AIProvider)
    (model_name : String) (messages : List Message)
    (user_memory : List UserMemory) (files : List FileUpload)
    (mid : String)
    (h : clientsContains svc.clients provider = true) :
    ∃ r : ChatResponse,
      svc.chat provider model_name messages user_memory files mid =
        Except.ok r ∧
      r.content =
        "This is a mock response from " ++ provider.toStr
          ++ " using model " ++ model_name ++ ". You said: "
          ++ ((messages.getLast?.map (fun m => m.content)).getD "") :=
  ⟨_, chat_eq_of_contains svc provider model_name messages user_memory
    files mid h, rfl⟩

/-- Witness for C1: a chat call against a service holding only the
Ollama entry. -/
theorem chat_is_mocked_witness :
    ∃ r : ChatResponse,
      AIService.chat
        ⟨[(AIProvider.Ollama, "http://localhost:11434")],
          AIServiceConfig.default⟩
        AIProvider.Ollama "llama3.2"
        [Message.new "s1" MessageRole.User "hello there" "m1" 0]
        [] [] "id-0" = Except.ok r ∧
      r.content =
        "This is a mock response from " ++ AIProvider.Ollama.toStr
          ++ " using model " ++ "llama3.2" ++ ". You said: "
          ++ (([Message.new "s1" MessageRole.User "hello there" "m1" 0].getLast?.map
              (fun m => m.content)).getD "") :=
  chat_is_mocked
    ⟨[(AIProvider.Ollama, "http://localhost:11434")], AIServiceConfig.default⟩
    AIProvider.Ollama "llama3.2"
    [Message.new "s1" MessageRole.User "hello there" "m1" 0]
    [] [] "id-0" (by decide)

/-- C6: `AIService::chat` returns an error exactly when the requested
provider has no entry in the clients map; `AIService::new` always
inserts an Ollama entry regardless of configuration, so a chat with
provider Ollama against a freshly constructed service never fails the
availability check. -/
theorem chat_availability (svc : AIService) (provider : AIProvider)
    (model_name : String) (messages : List Message)
    (user_memory : List UserMemory) (files : List FileUpload)
    (mid : String) (config : AIServiceConfig) :
    ∃ svcN : AIService,
      AIService.new config = Except.ok svcN ∧
      clientsContains svcN.clients AIProvider.Ollama = true ∧
      (exceptIsErr
          (svc.chat provider model_name messages user_memory files mid) =
            true ↔
        clientsContains svc.clients provider = false) ∧
      exceptIsErr
        (svcN.chat AIProvider.Ollama model_name messages user_memory files
          mid) = false := by
  refine ⟨_, rfl, ?_, ?_, ?_⟩
  · simp [clientsContains]
  · by_cases h : clientsContains svc.clients provider
    · rw [chat_eq_of_contains svc provider model_name messages user_memory
        files mid h]
      simp [h, exceptIsErr]
    · rw [chat_eq_of_not_contains svc provider model_name messages
        user_memory files mid (by simpa using h)]
      simpa [exceptIsErr] using h
  · rw [chat_eq_of_contains _ AIProvider.Ollama model_name messages
      user_memory files mid (by simp [clientsContains])]
    rfl

/-- C4: the messages of a session form an ordered list: for every database
state and session id, `get_session_messages` returns the stored
messages of that session (a permutation of the rows of the session, each
converted back to a `Message`) sorted in ascending order of their
`created_at` timestamp, and the `get_chat_history` server function
returns exactly this list. -/
theorem session_messages_ordered (db : DbState) (session_id : String)
    (state : AppState) :
    List.Sorted (fun a b : Message => a.created_at ≤ b.created_at)
      (Database.get_session_messages db session_id) ∧
    List.Perm (Database.get_session_messages db session_id)
      ((db.messages.filter (fun r => r.session_id = session_id)).map
        rowToMessage) ∧
    get_chat_history state session_id =
      Except.ok (Database.get_session_messages state.db session_id) := by
  refine ⟨?_, ?_, rfl⟩
  · unfold Database.get_session_messages
    rw [List.Sorted, List.pairwise_map]
    exact (List.sorted_insertionSort createdAtLe _).imp (fun h => h)
  · exact (List.perm_insertionSort createdAtLe _).map rowToMessage

/-- The relevance scores assigned in `send_message` follow the formula
1 - i * (1/10) over the question positions. -/
theorem mkSuggestedQuestions_scores (sid : String) (g : Nat → String)
    (base now : Nat) (qs : List String) :
    (mkSuggestedQuestions sid g base now qs).map
        (fun q => q.relevance_score) =
      (List.range qs.length).map (fun (i : Nat) => 1 - (i : ℚ) * (1 / 10)) := by
  unfold mkSuggestedQuestions
  rw [List.map_map]
  show qs.enum.map ((fun (i : Nat) => 1 - (i : ℚ) * (1 / 10)) ∘ Prod.fst) = _
  rw [← List.map_map, List.enum_map_fst]

/-- Every question saved by `send_message` starts out unused. -/
theorem mkSuggestedQuestions_used (sid : String) (g : Nat → String)
    (base now : Nat) (qs : List String) :
    (mkSuggestedQuestions sid g base now qs).map (fun q => q.used) =
      List.replicate qs.length false := by
  unfold mkSuggestedQuestions
  rw [List.map_map]
  show qs.enum.map (fun _ => false) = _
  rw [List.map_const']
  simp

/-- The relevance scores assigned in `send_message` are strictly
decreasing in list order. -/
theorem mkSuggestedQuestions_strictAnti (sid : String) (g : Nat → String)
    (base now : Nat) (qs : List String) :
    List.Pairwise (fun a b => b.relevance_score < a.relevance_score)
      (mkSuggestedQuestions sid g base now qs) := by
  rw [List.pairwise_iff_get]
  intro i j hij
  have hi :
      ((mkSuggestedQuestions sid g base now qs).get i).relevance_score =
        1 - (i.1 : ℚ) * (1 / 10) := by
    simp [mkSuggestedQuestions, List.get_eq_getElem, List.getElem_map,
      List.getElem_enum]
  have hj :
      ((mkSuggestedQuestions sid g base now qs).get j).relevance_score =
        1 - (j.1 : ℚ) * (1 / 10) := by
    simp [mkSuggestedQuestions, List.get_eq_getElem, List.getElem_map,
      List.getElem_enum]
  rw [hi, hj]
  have hlt : (i.1 : ℚ) < (j.1 : ℚ) := by exact_mod_cast hij
  have := mul_lt_mul_of_pos_right hlt (by norm_num : (0 : ℚ) < 1 / 10)
  linarith

/-- C10: for every response content, `generate_suggested_questions`
returns `Ok` with between 3 and 5 questions inclusive — never an empty
list and never more than 5 — and the suggested-question records built
in `send_message` give the i-th question (0-indexed) relevance score
1.0 - 0.1 * i with `used` initialised to false, so scores are strictly
decreasing in list order. -/
theorem suggested_questions_bounds (svc : AIService) (response : String)
    (messages : List Message) (user_memory : List UserMemory)
    (sid : String) (g : Nat → String) (base now : Nat) :
    ∃ qs : List String,
      generate_suggested_questions svc response messages user_memory =
        Except.ok qs ∧
      3 ≤ qs.length ∧ qs.length ≤ 5 ∧
      (mkSuggestedQuestions sid g base now qs).map
          (fun q => q.relevance_score) =
        (List.range qs.length).map (fun (i : Nat) => 1 - (i : ℚ) * (1 / 10)) ∧
      (mkSuggestedQuestions sid g base now qs).map (fun q => q.used) =
        List.replicate qs.length false ∧
      List.Pairwise (fun a b => b.relevance_score < a.relevance_score)
        (mkSuggestedQuestions sid g base now qs) := by
  refine ⟨specSuggestedQuestions response, rfl, ?_, ?_,
    mkSuggestedQuestions_scores sid g base now _,
    mkSuggestedQuestions_used sid g base now _,
    mkSuggestedQuestions_strictAnti sid g base now _⟩
  · simp only [specSuggestedQuestions, List.length_take,
      List.length_append, List.length_map, List.length_cons,
      List.length_nil]
    omega
  · simp only [specSuggestedQuestions, List.length_take]
    omega

/-- The data of the accumulator is a prefix of the data of the memory
fold. -/
theorem memFoldKeepsAcc :
    ∀ (l : List UserMemory) (acc : String),
      ∃ post, (l.foldl memoryLineStep acc).data = acc.data ++ post
  | [], acc => ⟨[], by simp⟩
  | x :: xs, acc => by
      obtain ⟨post, hp⟩ := memFoldKeepsAcc xs (memoryLineStep acc x)
      refine ⟨("- " ++ x.memory_key ++ ": " ++ x.memory_value ++ "\n").data
        ++ post, ?_⟩
      rw [List.foldl_cons, hp]
      simp [memoryLineStep, List.append_assoc]

/-- Every memory entry contributes its formatted line to the memory
fold, as a contiguous substring. -/
theorem memFold_containsLine :
    ∀ (l : List UserMemory) (acc : String) (m : UserMemory), m ∈ l →
      ∃ pre post, (l.foldl memoryLineStep acc).data =
        pre ++ ("- " ++ m.memory_key ++ ": " ++ m.memory_value ++ "\n").data
          ++ post
  | [], _, _, h => absurd h (List.not_mem_nil _)
  | x :: xs, acc, m, h => by
      rcases List.mem_cons.mp h with rfl | hx
      · obtain ⟨post, hp⟩ := memFoldKeepsAcc xs (memoryLineStep acc m)
        refine ⟨acc.data, post, ?_⟩
        rw [List.foldl_cons, hp]
        simp [memoryLineStep, List.append_assoc]
      · obtain ⟨pre, post, hp⟩ :=
          memFold_containsLine xs (memoryLineStep acc x) m hx
        exact ⟨pre, post, by rw [List.foldl_cons, hp]⟩

/-- C5: user memory is injected into the system prompt: the first
formatted message of every chat call is a system message whose content
is `build_system_prompt`; whenever the user-memory list is non-empty
that content contains the line "- &lt;key&gt;: &lt;value&gt;" for every
entry of the list; when the list is empty no context block is added —
the prompt is exactly the fixed assistant preamble. -/
theorem system_prompt_memory (svc : AIService)
    (messages : List Message) (files : List FileUpload)
    (user_memory : List UserMemory) (m : UserMemory)
    (hm : m ∈ user_memory) :
    (∃ rest, formatMessages svc (build_system_prompt svc user_memory)
        messages files =
      Except.ok
        (("system", build_system_prompt svc user_memory) :: rest)) ∧
    containsSubstring (build_system_prompt svc user_memory)
      ("- " ++ m.memory_key ++ ": " ++ m.memory_value ++ "\n") ∧
    build_system_prompt svc [] =
      "You are a helpful AI assistant. "
        ++ "\nAlways provide helpful, accurate, and engaging responses. "
        ++ ("If you" ++ apos ++ "re not sure about something, say so. ")
        ++ "You can process images, PDFs, and other files when provided." := by
  refine ⟨⟨_, formatMessages_eq svc _ messages files⟩, ?_, rfl⟩
  have hE : user_memory.isEmpty = false := by
    cases user_memory with
    | nil => cases hm
    | cons a l => rfl
  obtain ⟨pre, post, hp⟩ := memFold_containsLine user_memory "" m hm
  unfold build_system_prompt containsSubstring
  rw [hE]
  refine ⟨("You are a helpful AI assistant. "
      ++ "\n\nUser context and preferences:\n").data ++ pre,
    post ++ ("\nPlease remember and use this information in our conversation.\n"
      ++ ("\nAlways provide helpful, accurate, and engaging responses. "
        ++ ("If you" ++ apos ++ "re not sure about something, say so. ")
        ++ "You can process images, PDFs, and other files when provided.")).data,
    ?_⟩
  simp only [Bool.false_eq_true, if_false, String.data_append, hp,
    List.append_assoc]

/-- Witness for C5: the memory line of `memW` occurs in the system
prompt built over the singleton memory list. -/
theorem system_prompt_memory_witness :
    containsSubstring (build_system_prompt svcW [memW])
      ("- " ++ memW.memory_key ++ ": " ++ memW.memory_value ++ "\n") :=
  (system_prompt_memory svcW [] [] [memW] memW
    (List.mem_singleton.mpr rfl)).2.1

/-- Characterisation of `send_message` when the session exists and its
provider has a client entry: the call succeeds and the returned
response is the mock response computed over the messages fetched
before the new user message was stored. -/
theorem send_message_eq (state : AppState) (session_id msg : String)
    (files : List FileUpload) (uuidGen : Nat → String) (now now2 : Nat)
    (session : ChatSession)
    (hget : Database.get_session state.db session_id =
      Except.ok (some session))
    (hc : clientsContains state.ai_service.clients
      (AIProvider.fromString session.model_provider) = true) :
    ∃ stateA : AppState,
      send_message state session_id msg files uuidGen now now2 =
        Except.ok (stateA,
          { message_id := uuidGen (files.length + 1)
            content := mockResponse
              (AIProvider.fromString session.model_provider)
              session.model_name
              (Database.get_session_messages state.db session_id)
            reasoning := some "This is a mock reasoning process."
            suggested_questions := specSuggestedQuestions
              (mockResponse (AIProvider.fromString session.model_provider)
                session.model_name
                (Database.get_session_messages state.db session_id))
            model_provider :=
              (AIProvider.fromString session.model_provider).toStr
            model_name := session.model_name
            tokens_used := some 150 }) := by
  have hchat := chat_eq_of_contains state.ai_service
    (AIProvider.fromString session.model_provider) session.model_name
    (Database.get_session_messages state.db session_id)
    (Database.get_user_memory state.db session.user_id) files
    (uuidGen (files.length + 1)) hc
  apply Exists.intro
  unfold send_message
  rw [hget]
  simp only [okBind, pureOk]
  rw [hchat]
  simp only [okBind, pureOk]
  exact rfl

/-- C8: in `send_message` the message list passed to the AI service is
fetched from the database before the new user message is stored, so
the new message is not in that list; consequently the mock reply
echoes the previous last message of the session — the empty string for
the first message ever sent — rather than the message just sent, and
its content does not depend on the sent message at all. -/
theorem send_message_prefetch (state : AppState)
    (session_id msg msgB : String) (files : List FileUpload)
    (uuidGen : Nat → String) (now now2 : Nat) (session : ChatSession)
    (hget : Database.get_session state.db session_id =
      Except.ok (some session))
    (hc : clientsContains state.ai_service.clients
      (AIProvider.fromString session.model_provider) = true) :
    (∃ stateA resp,
      send_message state session_id msg files uuidGen now now2 =
        Except.ok (stateA, resp) ∧
      resp.content = mockResponse
        (AIProvider.fromString session.model_provider) session.model_name
        (Database.get_session_messages state.db session_id) ∧
      (Database.get_session_messages state.db session_id = [] →
        resp.content = "This is a mock response from "
          ++ (AIProvider.fromString session.model_provider).toStr
          ++ " using model " ++ session.model_name ++ ". You said: ") ∧
      (uuidGen 0 ∉ (Database.get_session_messages state.db
          session_id).map (fun mm => mm.id) →
        Message.new session_id MessageRole.User msg (uuidGen 0) now ∉
          Database.get_session_messages state.db session_id)) ∧
    (∀ stateA respA stateB respB,
      send_message state session_id msg files uuidGen now now2 =
        Except.ok (stateA, respA) →
      send_message state session_id msgB files uuidGen now now2 =
        Except.ok (stateB, respB) →
      respA.content = respB.content) := by
  obtain ⟨stA, hA⟩ := send_message_eq state session_id msg files uuidGen
    now now2 session hget hc
  obtain ⟨stB, hB⟩ := send_message_eq state session_id msgB files uuidGen
    now now2 session hget hc
  constructor
  · refine ⟨stA, _, hA, rfl, ?_, ?_⟩
    · intro h0
      rw [h0]
      simp [mockResponse]
    · intro hfresh hmem
      exact hfresh (List.mem_map_of_mem (fun mm => mm.id) hmem)
  · intro stateA respA stateB respB h1 h2
    rw [hA] at h1
    rw [hB] at h2
    have e1 : respA = _ := (congrArg Prod.snd
      (Except.ok.inj h1)).symm
    have e2 : respB = _ := (congrArg Prod.snd
      (Except.ok.inj h2)).symm
    rw [e1, e2]

/-- Witness for C8: a first message sent into the empty concrete
session store. -/
theorem send_message_prefetch_witness :
    (∃ stateA resp,
      send_message stateW "s1" "hi" [] uuidW 1 2 =
        Except.ok (stateA, resp) ∧
      resp.content = mockResponse
        (AIProvider.fromString sessionW.model_provider) sessionW.model_name
        (Database.get_session_messages stateW.db "s1") ∧
      (Database.get_session_messages stateW.db "s1" = [] →
        resp.content = "This is a mock response from "
          ++ (AIProvider.fromString sessionW.model_provider).toStr
          ++ " using model " ++ sessionW.model_name ++ ". You said: ") ∧
      (uuidW 0 ∉ (Database.get_session_messages stateW.db "s1").map
          (fun mm => mm.id) →
        Message.new "s1" MessageRole.User "hi" (uuidW 0) 1 ∉
          Database.get_session_messages stateW.db "s1")) ∧
    (∀ stateA respA stateB respB,
      send_message stateW "s1" "hi" [] uuidW 1 2 =
        Except.ok (stateA, respA) →
      send_message stateW "s1" "yo" [] uuidW 1 2 =
        Except.ok (stateB, respB) →
      respA.content = respB.content) :=
  send_message_prefetch stateW "s1" "hi" "yo" [] uuidW 1 2 sessionW
    rfl rfl

end Aichatbot
